import Mathlib

/-!
# Waffle-app video ingestion and transcoding pipeline — shallow embedding

This file embeds the video pipeline of the waffle-app repository
(`internal/videos/handler.go`, `internal/storage/videos.go`,
`internal/storage/conversations.go`) in Lean and proves the specified
properties about it.

Modelling decisions:
* The SQLite store is modelled as in-memory lists (`DBState`): `members` for
  the `members` table (primary key `(conversation_id, username)`), `videos`
  for the `videos` table (primary key `id`).  SQL statements are translated
  one by one: `INSERT OR IGNORE` never fails, a plain `INSERT` fails on a
  duplicate primary key, `UPDATE ... WHERE` succeeds regardless of how many
  rows matched, `SELECT ... ORDER BY uploaded_at DESC` is filter-then-sort.
* The filesystem is a list of file paths (treated as a set: files are added
  with `List.insert`, removed with `List.erase`).  `filepath.Join` is modelled
  as concatenation with `"/"`, which agrees with Go for clean, non-empty
  components as used by the handler.
* Fallible effects outside the program's control (multipart parsing, id
  generation, `os.MkdirAll`, `os.Create`/`io.Copy`, `ffmpeg`, `os.Remove`)
  are oracles passed as parameters; the embedding follows the handler's
  control flow on each outcome.
* Timestamps are natural numbers; `time.Sleep`'s duration is recorded in the
  transcode event trace rather than actually elapsing.
* `strings.ToLower` is modelled by ASCII lowercasing (the allow-list is
  ASCII-only, so the comparison decided by the gate is unchanged).
-/

namespace Waffle

/-- One row of the `videos` table (`storage.Video`). -/
structure Video where
  id : String
  conversationId : String
  uploader : String
  filename : String
  status : String
  uploadedAt : Nat
deriving DecidableEq, Repr

/-- The relational store: the `members` table keyed by
`(conversation_id, username)` and the `videos` table keyed by `id`. -/
structure DBState where
  members : List (String × String)
  videos : List Video
deriving DecidableEq, Repr

/-- `DB.IsMember`: `SELECT COUNT(*) FROM members WHERE conversation_id = ? AND
username = ?`, returning whether the count is positive. -/
def IsMember (db : DBState) (conversationID username : String) : Bool :=
  db.members.contains (conversationID, username)

/-- `DB.AddMember`: `INSERT OR IGNORE INTO members ...` — inserting an
existing `(conversation_id, username)` pair is ignored and is not an error. -/
def AddMember (db : DBState) (conversationID username : String) : DBState :=
  if (conversationID, username) ∈ db.members then db
  else { db with members := (conversationID, username) :: db.members }

/-- `DB.CreateVideo`: `INSERT INTO videos (id, conversation_id, uploader,
filename, status) VALUES (?, ?, ?, ?, 'pending')`.  Fails on a duplicate
primary key `id`; `uploaded_at` defaults to the current time. -/
def CreateVideo (db : DBState) (id conversationID uploader filename : String)
    (now : Nat) : Except String DBState :=
  if db.videos.any (fun v => v.id == id) then
    .error "create video: UNIQUE constraint failed"
  else
    .ok { db with videos :=
      { id := id, conversationId := conversationID, uploader := uploader,
        filename := filename, status := "pending", uploadedAt := now }
        :: db.videos }

/-- `DB.UpdateVideoStatus`: `UPDATE videos SET status = ? WHERE id = ?`.
A SQL `UPDATE` matching zero rows is not an error, so the call succeeds for
any `id`, rewriting the status of exactly the rows whose id matches. -/
def UpdateVideoStatus (db : DBState) (id status : String) :
    Except String DBState :=
  .ok { db with videos :=
    db.videos.map (fun v => if v.id == id then { v with status := status } else v) }

/-- Uploaded-at-descending, the `ORDER BY uploaded_at DESC` comparison used
by `GetVideosByConversation`. -/
def newestFirst (a b : Video) : Prop := b.uploadedAt ≤ a.uploadedAt

instance : DecidableRel newestFirst :=
  fun a b => Nat.decLe b.uploadedAt a.uploadedAt

instance : IsTotal Video newestFirst :=
  ⟨fun a b => Nat.le_total b.uploadedAt a.uploadedAt⟩

instance : IsTrans Video newestFirst :=
  ⟨fun _ _ _ h1 h2 => Nat.le_trans h2 h1⟩

/-- `DB.GetVideosByConversation`: `SELECT ... FROM videos WHERE
conversation_id = ? ORDER BY uploaded_at DESC`. -/
def GetVideosByConversation (db : DBState) (conversationID : String) :
    List Video :=
  List.insertionSort newestFirst
    (db.videos.filter (fun v => v.conversationId == conversationID))

/-- System state visible to the handler: the filesystem (a set of file paths)
and the relational store. -/
structure SysState where
  fs : List String
  db : DBState
deriving DecidableEq, Repr

/-- `videos.allowedExtensions`. -/
def allowedExtensions : List String := [".mp4", ".mov", ".avi", ".mkv"]

/-- `videos.maxRetries`. -/
def maxRetries : Nat := 3

/-- `videos.retryDelay` (seconds). -/
def retryDelay : Nat := 2

/-- Core of Go's `filepath.Ext`: scan the reversed character list from the end
of the path; on the first `.` return it plus the accumulated suffix, stop with
`""` at a path separator or at the start. -/
def extAux : List Char → List Char → String
  | [], _ => ""
  | c :: rest, acc =>
    if c = '/' then ""
    else if c = '.' then String.mk ('.' :: acc)
    else extAux rest (c :: acc)

/-- Go's `filepath.Ext`: the suffix beginning at the final dot of the final
path element, or `""` when there is no dot. -/
def filepathExt (path : String) : String :=
  extAux path.data.reverse []

/-- `strings.ToLower`, restricted to ASCII case mapping. -/
def strToLower (s : String) : String :=
  String.mk (s.data.map Char.toLower)

/-- `filepath.Join` for the clean, non-empty components the handler uses. -/
def joinPath (a b : String) : String := a ++ "/" ++ b

/-- `requireSession`: extract the session cookie and look it up in the session
store; both a missing token and a failed lookup yield `401` (here `none`). -/
def requireSession (hasToken : Bool) (lookup : Option String) : Option String :=
  if hasToken then lookup else none

/-- Outcome of `saveFile`'s two fallible steps: `os.Create` may fail (no file
appears), or `io.Copy` may fail after the file was created (a partial file
remains), or both succeed. -/
inductive WriteOutcome where
  | ok
  | createFail
  | copyFail
deriving DecidableEq, Repr

/-- `saveFile(src, destPath)`: `os.Create` then `io.Copy`.  Returns the error
status together with the filesystem after the call — on `io.Copy` failure the
created (partial) file is on disk, and `saveFile` does not remove it. -/
def saveFile (w : WriteOutcome) (fs : List String) (destPath : String) :
    Except String Unit × List String :=
  match w with
  | .createFail => (.error "create file", fs)
  | .copyFail => (.error "write file", fs.insert destPath)
  | .ok => (.ok (), fs.insert destPath)

/-- One upload request together with the outcomes of its fallible effects:
presence of the session cookie, the session-store lookup result, multipart
parsing, the client-declared form values, id generation, `os.MkdirAll`, and
the `saveFile` write. -/
structure UploadRequest where
  hasToken : Bool
  sessionUser : Option String
  parseOk : Bool
  conversationId : String
  hasFile : Bool
  filename : String
  genOk : Bool
  videoId : String
  mkdirOk : Bool
  writeOutcome : WriteOutcome
deriving DecidableEq, Repr

/-- The background work dispatched by `go h.transcode(...)`. -/
structure TranscodeJob where
  videoId : String
  inputPath : String
  outputPath : String
deriving DecidableEq, Repr

/-- What `Upload` produces: the HTTP status, the JSON body
`{video_id, status}` when one is written, the system state at return, and the
transcode job dispatched in the background (if any). -/
structure UploadResult where
  httpStatus : Nat
  body : Option (String × String)
  state : SysState
  job : Option TranscodeJob
deriving DecidableEq, Repr

/-- `Handler.Upload` (POST /api/upload), step for step:
session check, multipart parse, `conversation_id`, membership, form file,
extension gate, id generation, conversation directory, original write,
`pending` record creation (removing the original on failure), and finally the
`202` response with the transcode job dispatched. -/
def Upload (videosDir : String) (req : UploadRequest) (st : SysState)
    (now : Nat) : UploadResult :=
  match requireSession req.hasToken req.sessionUser with
  | none => ⟨401, none, st, none⟩
  | some username =>
    if !req.parseOk then ⟨400, none, st, none⟩
    else if req.conversationId == "" then ⟨400, none, st, none⟩
    else if !(IsMember st.db req.conversationId username) then ⟨403, none, st, none⟩
    else if !req.hasFile then ⟨400, none, st, none⟩
    else
      let ext := strToLower (filepathExt req.filename)
      if !(allowedExtensions.contains ext) then ⟨400, none, st, none⟩
      else if !req.genOk then ⟨500, none, st, none⟩
      else
        let convDir := joinPath videosDir req.conversationId
        if !req.mkdirOk then ⟨500, none, st, none⟩
        else
          let originalPath := joinPath convDir ("original_" ++ req.videoId ++ ext)
          let outputPath := joinPath convDir (req.videoId ++ ".mp4")
          match saveFile req.writeOutcome st.fs originalPath with
          | (.error _, fs1) => ⟨500, none, { st with fs := fs1 }, none⟩
          | (.ok _, fs1) =>
            match CreateVideo st.db req.videoId req.conversationId username
                outputPath now with
            | .error _ => ⟨500, none, { fs := fs1.erase originalPath, db := st.db }, none⟩
            | .ok db1 =>
              ⟨202, some (req.videoId, "pending"), ⟨fs1, db1⟩,
                some ⟨req.videoId, originalPath, outputPath⟩⟩

/-- One listing request: session cookie presence, session lookup result, and
the `conversation_id` query parameter. -/
structure ListRequest where
  hasToken : Bool
  sessionUser : Option String
  conversationId : String
deriving DecidableEq, Repr

/-- What `List` produces: HTTP status, the JSON array of
`{id, uploader, status, uploaded_at}` rows when written, and the system state
at return (the handler performs no writes). -/
structure ListResult where
  httpStatus : Nat
  body : Option (List (String × String × String × Nat))
  state : SysState
deriving DecidableEq, Repr

/-- `Handler.List` (GET /api/videos): session check, `conversation_id`,
membership, then the ordered query mapped to response rows. -/
def ListVideos (req : ListRequest) (st : SysState) : ListResult :=
  match requireSession req.hasToken req.sessionUser with
  | none => ⟨401, none, st⟩
  | some username =>
    if req.conversationId == "" then ⟨400, none, st⟩
    else if !(IsMember st.db req.conversationId username) then ⟨403, none, st⟩
    else
      ⟨200,
        some ((GetVideosByConversation st.db req.conversationId).map
          (fun v => (v.id, v.uploader, v.status, v.uploadedAt))),
        st⟩

/-- Observable events of one `transcode` worker run, in program order. -/
inductive TEvent where
  | attempt (n : Nat) (success : Bool)
  | sleep (seconds : Nat)
  | removeOriginal (success : Bool)
  | setStatus (s : String)
deriving DecidableEq, Repr

/-- Apply `h.DB.UpdateVideoStatus`, logging (ignoring) a failure as the
worker does. -/
def applyStatus (st : SysState) (videoID status : String) : SysState :=
  match UpdateVideoStatus st.db videoID status with
  | .ok db1 => { st with db := db1 }
  | .error _ => st

/-- The retry loop of `Handler.transcode`, with `remaining` attempts left and
the current attempt number `a`.  `ffmpegOk n` tells whether the `n`-th
`ffmpeg` invocation succeeds (writing the output file), `removeOk` whether
`os.Remove` of the original succeeds.  Returns the event trace and the final
state: on success the original is deleted (failure logged only) and the
status set to `ready`; on failure the worker sleeps `retryDelay` unless this
was the last attempt; after exhaustion the status is set to `error`. -/
def transcodeAux (ffmpegOk : Nat → Bool) (removeOk : Bool)
    (videoID inputPath outputPath : String) :
    Nat → Nat → SysState → List TEvent × SysState
  | _, 0, st => ([TEvent.setStatus "error"], applyStatus st videoID "error")
  | a, n + 1, st =>
    if ffmpegOk a then
      let fs1 := st.fs.insert outputPath
      let fs2 := if removeOk then fs1.erase inputPath else fs1
      ([TEvent.attempt a true, TEvent.removeOriginal removeOk,
        TEvent.setStatus "ready"],
       applyStatus { st with fs := fs2 } videoID "ready")
    else
      let rest := transcodeAux ffmpegOk removeOk videoID inputPath outputPath
        (a + 1) n st
      if n = 0 then (TEvent.attempt a false :: rest.1, rest.2)
      else (TEvent.attempt a false :: TEvent.sleep retryDelay :: rest.1, rest.2)

/-- `Handler.transcode(videoID, inputPath, outputPath)`: up to `maxRetries`
attempts starting from attempt 1. -/
def transcode (ffmpegOk : Nat → Bool) (removeOk : Bool)
    (videoID inputPath outputPath : String) (st : SysState) :
    List TEvent × SysState :=
  transcodeAux ffmpegOk removeOk videoID inputPath outputPath 1 maxRetries st

/-- The trace of a run that fails its first `m` attempts starting at attempt
`a`: each failed attempt is followed by the constant-delay sleep. -/
def failTrace : Nat → Nat → List TEvent
  | _, 0 => []
  | a, m + 1 =>
    TEvent.attempt a false :: TEvent.sleep retryDelay :: failTrace (a + 1) m

/-- The trace of a run whose `n` remaining attempts, starting at attempt `a`,
all fail: each failed attempt except the last is followed by the
constant-delay sleep, and exhaustion ends with the `error` status write. -/
def allFailTrace : Nat → Nat → List TEvent
  | _, 0 => [TEvent.setStatus "error"]
  | a, n + 1 =>
    if n = 0 then [TEvent.attempt a false, TEvent.setStatus "error"]
    else TEvent.attempt a false :: TEvent.sleep retryDelay ::
      allFailTrace (a + 1) n

/-- The status values written by a trace, in order. -/
def statusWrites (tr : List TEvent) : List String :=
  tr.filterMap (fun e => match e with | .setStatus s => some s | _ => none)

/-- Whether an event is a conversion attempt. -/
def isAttempt : TEvent → Bool
  | .attempt _ _ => true
  | _ => false

/-- A request whose session, parsing, file presence, id generation and
directory creation all succeed — the shape shared by the happy-path and
write/record-failure scenarios. -/
def mkUploadReq (username conversationId filename videoId : String)
    (w : WriteOutcome) : UploadRequest :=
  ⟨true, some username, true, conversationId, true, filename, true, videoId,
   true, w⟩

/-! ## Helper lemmas -/

/-- `applyStatus` only touches the store, never the filesystem. -/
theorem applyStatus_fs (st : SysState) (videoID status : String) :
    (applyStatus st videoID status).fs = st.fs := rfl

/-- After `applyStatus`, every record with the targeted id carries the new
status. -/
theorem mem_applyStatus_status (st : SysState) (videoID status : String) :
    ∀ v ∈ (applyStatus st videoID status).db.videos,
      v.id = videoID → v.status = status := by
  intro v hv hid
  simp only [applyStatus, UpdateVideoStatus, List.mem_map] at hv
  obtain ⟨w, _, hw⟩ := hv
  by_cases h : w.id = videoID
  · rw [if_pos (by simpa using h)] at hw
    rw [← hw]
  · rw [if_neg (by simpa using h)] at hw
    exact absurd (hw ▸ hid) h

/-- A transcode run writes the status exactly once, with value `"ready"` or
`"error"`. -/
theorem statusWrites_transcodeAux (f : Nat → Bool) (r : Bool)
    (vid input output : String) :
    ∀ n a st,
      statusWrites (transcodeAux f r vid input output a n st).1 = ["ready"] ∨
      statusWrites (transcodeAux f r vid input output a n st).1 = ["error"] := by
  intro n
  induction n with
  | zero => intro a st; right; rfl
  | succ n ih =>
    intro a st
    by_cases hf : f a = true
    · left; simp [transcodeAux, hf, statusWrites]
    · by_cases hn : n = 0
      · right; simp [transcodeAux, hf, hn, statusWrites]
      · rcases ih (a + 1) st with h | h
        · left; simpa [transcodeAux, hf, hn, statusWrites] using h
        · right; simpa [transcodeAux, hf, hn, statusWrites] using h

/-- A run whose attempts all fail produces the all-fail trace and ends by
setting the status to `error`, with the filesystem untouched. -/
theorem transcodeAux_all_fail (f : Nat → Bool) (r : Bool)
    (vid input output : String) :
    ∀ n a st, (∀ j, a ≤ j → j < a + n → f j = false) →
      transcodeAux f r vid input output a n st =
        (allFailTrace a n, applyStatus st vid "error") := by
  intro n
  induction n with
  | zero => intro a st _; rfl
  | succ n ih =>
    intro a st hfail
    have ha : f a = false := hfail a (Nat.le_refl a) (by omega)
    have hrest := ih (a + 1) st (fun j hj1 hj2 => hfail j (by omega) (by omega))
    by_cases hn : n = 0
    · subst hn
      simp [transcodeAux, ha, hrest, allFailTrace]
    · simp [transcodeAux, ha, hrest, allFailTrace, hn]

/-- A run whose first success is attempt `a + m` (all earlier attempts fail,
`m` within the remaining budget) stops right there: the trace is the failure
prefix followed by the successful attempt, the original-file removal, and the
`ready` status write; the final state has the output file written, the input
file erased exactly when the removal succeeded, and status `ready`. -/
theorem transcodeAux_first_success (f : Nat → Bool) (r : Bool)
    (vid input output : String) :
    ∀ n m a st, m < n → f (a + m) = true →
      (∀ j, a ≤ j → j < a + m → f j = false) →
      transcodeAux f r vid input output a n st =
        (failTrace a m ++ [TEvent.attempt (a + m) true,
           TEvent.removeOriginal r, TEvent.setStatus "ready"],
         applyStatus
           ⟨if r then (st.fs.insert output).erase input
             else st.fs.insert output, st.db⟩
           vid "ready") := by
  intro n
  induction n with
  | zero => intro m a st hm _ _; exact absurd hm (Nat.not_lt_zero m)
  | succ n ih =>
    intro m a st hm hsucc hfail
    cases m with
    | zero =>
      have ha : f a = true := by simpa using hsucc
      by_cases hr : r <;> simp [transcodeAux, ha, failTrace, hr]
    | succ m' =>
      have ha : f a = false := hfail a (Nat.le_refl a) (by omega)
      have hn0 : n ≠ 0 := by omega
      have hshift : a + 1 + m' = a + (m' + 1) := by omega
      have hrest := ih m' (a + 1) st (by omega)
        (by rw [hshift]; exact hsucc)
        (fun j hj1 hj2 => hfail j (by omega) (by omega))
      simp [transcodeAux, ha, hn0, hrest, failTrace, hshift]

/-! ## Claims -/

/-- C7: Listing videos for a conversation returns exactly the video records
whose `conversationId` equals the queried conversation (a permutation of the
filter of the store by that conversation, so records of all statuses are
included and records of other conversations are omitted), ordered by
`uploadedAt` descending (newest first). -/
theorem C7_list_by_conversation (db : DBState) (conversationID : String) :
    (GetVideosByConversation db conversationID).Perm
      (db.videos.filter (fun v => v.conversationId == conversationID)) ∧
    (GetVideosByConversation db conversationID).Sorted newestFirst :=
  ⟨List.perm_insertionSort newestFirst _,
   List.sorted_insertionSort newestFirst _⟩

/-- C8: Every video record is created with status `pending`
(`CreateVideo` inserts the new row with status `"pending"`), and each
transcode worker run performs exactly one status write, whose value is
`"ready"` or `"error"`; no code path writes any other status, so the only
transitions are pending-to-ready and pending-to-error. -/
theorem C8_status_lifecycle :
    (∀ (db : DBState) (id conversationID uploader filename : String)
        (now : Nat),
      db.videos.any (fun v => v.id == id) = false →
      CreateVideo db id conversationID uploader filename now =
        Except.ok { db with videos :=
          ⟨id, conversationID, uploader, filename, "pending", now⟩
            :: db.videos }) ∧
    (∀ (f : Nat → Bool) (removeOk : Bool) (vid input output : String)
        (st : SysState),
      statusWrites (transcode f removeOk vid input output st).1 = ["ready"] ∨
      statusWrites (transcode f removeOk vid input output st).1 = ["error"]) := by
  constructor
  · intro db id conversationID uploader filename now h
    simp [CreateVideo, h]
  · intro f removeOk vid input output st
    exact statusWrites_transcodeAux f removeOk vid input output maxRetries 1 st

/-- Witness for C8 at concrete inputs: creating a video in an empty store
yields a `pending` record, and an all-successful transcode run writes status
`"ready"` exactly once. -/
theorem C8_status_lifecycle_witness :
    CreateVideo ⟨[], []⟩ "vid-1" "conv-1" "alice" "/videos/conv-1/vid-1.mp4" 5 =
      Except.ok ⟨[], [⟨"vid-1", "conv-1", "alice", "/videos/conv-1/vid-1.mp4",
        "pending", 5⟩]⟩ ∧
    (statusWrites (transcode (fun _ => true) true "vid-1" "i" "o"
        ⟨[], ⟨[], []⟩⟩).1 = ["ready"] ∨
     statusWrites (transcode (fun _ => true) true "vid-1" "i" "o"
        ⟨[], ⟨[], []⟩⟩).1 = ["error"]) :=
  ⟨C8_status_lifecycle.1 ⟨[], []⟩ "vid-1" "conv-1" "alice"
      "/videos/conv-1/vid-1.mp4" 5 (by decide),
   C8_status_lifecycle.2 (fun _ => true) true "vid-1" "i" "o" ⟨[], ⟨[], []⟩⟩⟩

/-- C9 counterexample: `UpdateVideoStatus` on a store with no record for the
given id does not fail — the `UPDATE ... WHERE id = ?` matches zero rows and
succeeds, returning `ok` with the store unchanged, contrary to the claim that
`setStatus` returns an error for an unknown id. -/
theorem C9_counterexample :
    UpdateVideoStatus ⟨[], []⟩ "vid-1" "ready" = Except.ok ⟨[], []⟩ := rfl

/-- C9 (amended): `setStatus` called with an id for which no video record
exists succeeds (returns `ok`), leaving the store unchanged; the `UPDATE`
statement does not treat zero affected rows as an error. -/
theorem C9_update_unknown_id (db : DBState) (id status : String)
    (h : ∀ v ∈ db.videos, v.id ≠ id) :
    UpdateVideoStatus db id status = Except.ok db := by
  cases db with
  | mk members videos =>
    have hmap : videos.map
        (fun v => if v.id == id then { v with status := status } else v) =
        videos := by
      induction videos with
      | nil => rfl
      | cons a t ih =>
        have ha : a.id ≠ id := h a (List.mem_cons_self a t)
        simp only [List.map_cons]
        rw [if_neg (by simpa using ha),
          ih (fun v hv => h v (List.mem_cons_of_mem a hv))]
    simp only [UpdateVideoStatus]
    rw [hmap]

/-- Witness for C9 (amended): updating an id absent from a one-record store
returns `ok` with the store unchanged. -/
theorem C9_update_unknown_id_witness :
    UpdateVideoStatus ⟨[("conv-1", "alice")],
        [⟨"vid-1", "conv-1", "alice", "f", "pending", 0⟩]⟩ "vid-2" "ready" =
      Except.ok ⟨[("conv-1", "alice")],
        [⟨"vid-1", "conv-1", "alice", "f", "pending", 0⟩]⟩ :=
  C9_update_unknown_id _ "vid-2" "ready" (by decide)

/-- C1: An accepted upload (authenticated member, allowed extension,
successful write and record creation) returns `202` with the video id and
status `"pending"`; at that moment a `pending` metadata record exists whose
`filename` is the canonical path, the original file exists at its expected
path inside the per-conversation directory, and the canonical path is the
conversation directory plus the video id plus `".mp4"`. The transcode work
is dispatched as a background job, not awaited. -/
theorem C1_upload_accepted (videosDir username conversationID filename
    videoId : String) (st : SysState) (now : Nat)
    (hcid : conversationID ≠ "")
    (hmem : IsMember st.db conversationID username = true)
    (hext : allowedExtensions.contains (strToLower (filepathExt filename)) = true)
    (hid : st.db.videos.any (fun v => v.id == videoId) = false) :
    (Upload videosDir (mkUploadReq username conversationID filename videoId
        .ok) st now).httpStatus = 202 ∧
    (Upload videosDir (mkUploadReq username conversationID filename videoId
        .ok) st now).body = some (videoId, "pending") ∧
    (∃ v ∈ (Upload videosDir (mkUploadReq username conversationID filename
        videoId .ok) st now).state.db.videos,
      v.id = videoId ∧ v.status = "pending" ∧
      v.filename = joinPath (joinPath videosDir conversationID)
        (videoId ++ ".mp4")) ∧
    joinPath (joinPath videosDir conversationID)
        ("original_" ++ videoId ++ strToLower (filepathExt filename)) ∈
      (Upload videosDir (mkUploadReq username conversationID filename videoId
        .ok) st now).state.fs ∧
    (Upload videosDir (mkUploadReq username conversationID filename videoId
        .ok) st now).job =
      some ⟨videoId,
        joinPath (joinPath videosDir conversationID)
          ("original_" ++ videoId ++ strToLower (filepathExt filename)),
        joinPath (joinPath videosDir conversationID) (videoId ++ ".mp4")⟩ ∧
    joinPath (joinPath videosDir conversationID) (videoId ++ ".mp4") =
      videosDir ++ "/" ++ conversationID ++ "/" ++ videoId ++ ".mp4" := by
  have hupl : Upload videosDir (mkUploadReq username conversationID filename
      videoId .ok) st now =
      ⟨202, some (videoId, "pending"),
       ⟨st.fs.insert (joinPath (joinPath videosDir conversationID)
          ("original_" ++ videoId ++ strToLower (filepathExt filename))),
        { st.db with videos :=
          ⟨videoId, conversationID, username,
           joinPath (joinPath videosDir conversationID) (videoId ++ ".mp4"),
           "pending", now⟩ :: st.db.videos }⟩,
       some ⟨videoId,
         joinPath (joinPath videosDir conversationID)
           ("original_" ++ videoId ++ strToLower (filepathExt filename)),
         joinPath (joinPath videosDir conversationID) (videoId ++ ".mp4")⟩⟩ := by
    have hext' : strToLower (filepathExt filename) ∈ allowedExtensions := by
      simpa using hext
    simp [Upload, mkUploadReq, requireSession, saveFile, CreateVideo,
      hcid, hmem, hext', hid]
  rw [hupl]
  refine ⟨rfl, rfl, ⟨_, List.mem_cons_self _ _, rfl, rfl, rfl⟩,
    List.mem_insert_self _ _, rfl, ?_⟩
  simp [joinPath, String.append_assoc]

/-- Witness for C1: a member of `conv-1` uploads `Clip.MP4`; the handler
returns `202`/`pending`, the pending record and the original file exist, and
the canonical path is the conversation directory plus the id plus `.mp4`. -/
theorem C1_upload_accepted_witness :
    (Upload "videos" (mkUploadReq "alice" "conv-1" "Clip.MP4" "vid1" .ok)
        ⟨[], ⟨[("conv-1", "alice")], []⟩⟩ 7).httpStatus = 202 ∧
    (Upload "videos" (mkUploadReq "alice" "conv-1" "Clip.MP4" "vid1" .ok)
        ⟨[], ⟨[("conv-1", "alice")], []⟩⟩ 7).body = some ("vid1", "pending") ∧
    (∃ v ∈ (Upload "videos" (mkUploadReq "alice" "conv-1" "Clip.MP4" "vid1"
        .ok) ⟨[], ⟨[("conv-1", "alice")], []⟩⟩ 7).state.db.videos,
      v.id = "vid1" ∧ v.status = "pending" ∧
      v.filename = joinPath (joinPath "videos" "conv-1") ("vid1" ++ ".mp4")) ∧
    joinPath (joinPath "videos" "conv-1")
        ("original_" ++ "vid1" ++ strToLower (filepathExt "Clip.MP4")) ∈
      (Upload "videos" (mkUploadReq "alice" "conv-1" "Clip.MP4" "vid1" .ok)
        ⟨[], ⟨[("conv-1", "alice")], []⟩⟩ 7).state.fs ∧
    (Upload "videos" (mkUploadReq "alice" "conv-1" "Clip.MP4" "vid1" .ok)
        ⟨[], ⟨[("conv-1", "alice")], []⟩⟩ 7).job =
      some ⟨"vid1",
        joinPath (joinPath "videos" "conv-1")
          ("original_" ++ "vid1" ++ strToLower (filepathExt "Clip.MP4")),
        joinPath (joinPath "videos" "conv-1") ("vid1" ++ ".mp4")⟩ ∧
    joinPath (joinPath "videos" "conv-1") ("vid1" ++ ".mp4") =
      "videos" ++ "/" ++ "conv-1" ++ "/" ++ "vid1" ++ ".mp4" :=
  C1_upload_accepted "videos" "alice" "conv-1" "Clip.MP4" "vid1"
    ⟨[], ⟨[("conv-1", "alice")], []⟩⟩ 7 (by decide) (by decide) (by decide)
    (by decide)

/-- C5: An upload whose client-declared filename has an extension outside the
four-container allow-list (compared case-insensitively) is rejected with a
client-error signal — `400` at the gate itself, or `401`/`403` if an earlier
check already rejected — and the system state is unchanged: no file is
written, no metadata record is created, and no transcode job starts. -/
theorem C5_disallowed_extension (videosDir : String) (req : UploadRequest)
    (st : SysState) (now : Nat)
    (hext : allowedExtensions.contains (strToLower (filepathExt req.filename))
      = false) :
    ((Upload videosDir req st now).httpStatus = 400 ∨
     (Upload videosDir req st now).httpStatus = 401 ∨
     (Upload videosDir req st now).httpStatus = 403) ∧
    (Upload videosDir req st now).state = st ∧
    (Upload videosDir req st now).job = none := by
  simp only [Upload]
  split
  · simp
  · split
    · simp
    · split
      · simp
      · split
        · simp
        · split
          · simp
          · have hext' : strToLower (filepathExt req.filename) ∉
                allowedExtensions := by simpa using hext
            simp [hext']

/-- Witness for C5: uploading `clip.exe` by a member is rejected with `400`
and leaves the state unchanged with no job dispatched. -/
theorem C5_disallowed_extension_witness :
    ((Upload "videos" (mkUploadReq "alice" "conv-1" "clip.exe" "vid1" .ok)
        ⟨[], ⟨[("conv-1", "alice")], []⟩⟩ 0).httpStatus = 400 ∨
     (Upload "videos" (mkUploadReq "alice" "conv-1" "clip.exe" "vid1" .ok)
        ⟨[], ⟨[("conv-1", "alice")], []⟩⟩ 0).httpStatus = 401 ∨
     (Upload "videos" (mkUploadReq "alice" "conv-1" "clip.exe" "vid1" .ok)
        ⟨[], ⟨[("conv-1", "alice")], []⟩⟩ 0).httpStatus = 403) ∧
    (Upload "videos" (mkUploadReq "alice" "conv-1" "clip.exe" "vid1" .ok)
        ⟨[], ⟨[("conv-1", "alice")], []⟩⟩ 0).state =
      ⟨[], ⟨[("conv-1", "alice")], []⟩⟩ ∧
    (Upload "videos" (mkUploadReq "alice" "conv-1" "clip.exe" "vid1" .ok)
        ⟨[], ⟨[("conv-1", "alice")], []⟩⟩ 0).job = none :=
  C5_disallowed_extension "videos"
    (mkUploadReq "alice" "conv-1" "clip.exe" "vid1" .ok)
    ⟨[], ⟨[("conv-1", "alice")], []⟩⟩ 0 (by decide)

/-- C2 counterexample: a run whose first attempt succeeds but whose deletion
of the original fails still sets the status to `ready` (the canonical file
exists), yet the original file is still on disk afterwards — contradicting
the claim's "afterwards … the original does not [exist]" for every run with
a successful attempt. -/
theorem C2_counterexample :
    "d/original_v1.mp4" ∈
      (transcode (fun _ => true) false "v1" "d/original_v1.mp4" "d/v1.mp4"
        ⟨["d/original_v1.mp4"],
         ⟨[], [⟨"v1", "conv-1", "alice", "d/v1.mp4", "pending", 0⟩]⟩⟩).2.fs ∧
    "d/v1.mp4" ∈
      (transcode (fun _ => true) false "v1" "d/original_v1.mp4" "d/v1.mp4"
        ⟨["d/original_v1.mp4"],
         ⟨[], [⟨"v1", "conv-1", "alice", "d/v1.mp4", "pending", 0⟩]⟩⟩).2.fs ∧
    ((transcode (fun _ => true) false "v1" "d/original_v1.mp4" "d/v1.mp4"
        ⟨["d/original_v1.mp4"],
         ⟨[], [⟨"v1", "conv-1", "alice", "d/v1.mp4", "pending", 0⟩]⟩⟩).2.db.videos.map
      Video.status) = ["ready"] := by
  decide

/-- C2 (amended): in every transcode run whose first success is attempt `k`,
the worker stops retrying at that attempt, the deletion of the original is
attempted only after the successful conversion (convert-then-delete order in
the trace), the status becomes `ready` whether or not the deletion succeeds,
and afterwards the canonical file exists; the original is gone provided the
deletion itself succeeded (if the deletion fails it is only logged and the
original remains). -/
theorem C2_transcode_success (f : Nat → Bool) (removeOk : Bool)
    (vid input output : String) (st : SysState) (k : Nat)
    (hk1 : 1 ≤ k) (hk3 : k ≤ maxRetries)
    (hsucc : f k = true)
    (hfail : ∀ j, 1 ≤ j → j < k → f j = false)
    (hio : input ≠ output)
    (hnd : st.fs.Nodup) :
    (transcode f removeOk vid input output st).1 =
      failTrace 1 (k - 1) ++ [TEvent.attempt k true,
        TEvent.removeOriginal removeOk, TEvent.setStatus "ready"] ∧
    output ∈ (transcode f removeOk vid input output st).2.fs ∧
    (removeOk = true →
      input ∉ (transcode f removeOk vid input output st).2.fs) ∧
    (∀ v ∈ (transcode f removeOk vid input output st).2.db.videos,
      v.id = vid → v.status = "ready") := by
  have hk3' : k ≤ 3 := hk3
  have hm : k - 1 < maxRetries := by show k - 1 < 3; omega
  have hk : 1 + (k - 1) = k := by omega
  have h := transcodeAux_first_success f removeOk vid input output maxRetries
    (k - 1) 1 st hm (by rw [hk]; exact hsucc)
    (fun j hj1 hj2 => hfail j hj1 (by omega))
  have ht : transcode f removeOk vid input output st =
      (failTrace 1 (k - 1) ++ [TEvent.attempt k true,
         TEvent.removeOriginal removeOk, TEvent.setStatus "ready"],
       applyStatus
         ⟨if removeOk then (st.fs.insert output).erase input
           else st.fs.insert output, st.db⟩
         vid "ready") := by
    rw [transcode, h, hk]
  rw [ht]
  refine ⟨rfl, ?_, ?_, mem_applyStatus_status _ vid "ready"⟩
  · by_cases hr : removeOk = true
    · simp only [hr, if_pos]
      exact (List.mem_erase_of_ne (Ne.symm hio)).mpr
        (List.mem_insert_self output st.fs)
    · simp only [hr, if_false, Bool.false_eq_true]
      exact List.mem_insert_self output st.fs
  · intro hr
    simp only [hr, if_pos]
    intro hmem
    exact absurd ((hnd.insert.mem_erase_iff).mp hmem).1 (by simp)

/-- Witness for C2 (amended): attempt 1 fails, attempt 2 succeeds, deletion
succeeds; the run stops after attempt 2, the canonical file exists, the
original does not, and the status is `ready`. -/
theorem C2_transcode_success_witness :
    (transcode (fun n => n == 2) true "v1" "in" "out"
        ⟨["in"], ⟨[], [⟨"v1", "conv-1", "alice", "out", "pending", 0⟩]⟩⟩).1 =
      failTrace 1 (2 - 1) ++ [TEvent.attempt 2 true,
        TEvent.removeOriginal true, TEvent.setStatus "ready"] ∧
    "out" ∈ (transcode (fun n => n == 2) true "v1" "in" "out"
        ⟨["in"], ⟨[], [⟨"v1", "conv-1", "alice", "out", "pending", 0⟩]⟩⟩).2.fs ∧
    (true = true →
      "in" ∉ (transcode (fun n => n == 2) true "v1" "in" "out"
        ⟨["in"], ⟨[], [⟨"v1", "conv-1", "alice", "out", "pending", 0⟩]⟩⟩).2.fs) ∧
    (∀ v ∈ (transcode (fun n => n == 2) true "v1" "in" "out"
        ⟨["in"], ⟨[], [⟨"v1", "conv-1", "alice", "out", "pending",
          0⟩]⟩⟩).2.db.videos,
      v.id = "v1" → v.status = "ready") :=
  C2_transcode_success (fun n => n == 2) true "v1" "in" "out"
    ⟨["in"], ⟨[], [⟨"v1", "conv-1", "alice", "out", "pending", 0⟩]⟩⟩ 2
    (by decide) (by decide) (by decide)
    (by intro j h1 h2; simp only [beq_eq_false_iff_ne]; omega)
    (by decide) (by decide)

/-- C3: in every transcode run in which all attempts fail, exactly
`maxRetries` (3) attempts are made, with the constant delay between
consecutive attempts and no delay after the last; the filesystem — in
particular the original file — is untouched, and the status is set to
`error`. -/
theorem C3_transcode_exhausted (f : Nat → Bool) (removeOk : Bool)
    (vid input output : String) (st : SysState)
    (h1 : f 1 = false) (h2 : f 2 = false) (h3 : f 3 = false) :
    (transcode f removeOk vid input output st).1 =
      [TEvent.attempt 1 false, TEvent.sleep retryDelay,
       TEvent.attempt 2 false, TEvent.sleep retryDelay,
       TEvent.attempt 3 false, TEvent.setStatus "error"] ∧
    ((transcode f removeOk vid input output st).1.filter isAttempt).length =
      maxRetries ∧
    (transcode f removeOk vid input output st).2.fs = st.fs ∧
    (∀ v ∈ (transcode f removeOk vid input output st).2.db.videos,
      v.id = vid → v.status = "error") := by
  have hfail : ∀ j, 1 ≤ j → j < 1 + maxRetries → f j = false := by
    intro j hj1 hj2
    have hj2' : j < 4 := hj2
    have : j = 1 ∨ j = 2 ∨ j = 3 := by omega
    rcases this with h | h | h <;> simp [h, h1, h2, h3]
  have ht : transcode f removeOk vid input output st =
      (allFailTrace 1 maxRetries, applyStatus st vid "error") :=
    transcodeAux_all_fail f removeOk vid input output maxRetries 1 st hfail
  rw [ht]
  refine ⟨?_, ?_, applyStatus_fs st vid "error",
    mem_applyStatus_status st vid "error"⟩
  · show allFailTrace 1 maxRetries =
      [TEvent.attempt 1 false, TEvent.sleep retryDelay,
       TEvent.attempt 2 false, TEvent.sleep retryDelay,
       TEvent.attempt 3 false, TEvent.setStatus "error"]
    decide
  · show ((allFailTrace 1 maxRetries).filter isAttempt).length = maxRetries
    decide

/-- Witness for C3: with every attempt failing, the run makes exactly three
attempts with constant delays, leaves the filesystem untouched, and marks the
video `error`. -/
theorem C3_transcode_exhausted_witness :
    (transcode (fun _ => false) true "v1" "in" "out"
        ⟨["in"], ⟨[], [⟨"v1", "conv-1", "alice", "out", "pending", 0⟩]⟩⟩).1 =
      [TEvent.attempt 1 false, TEvent.sleep retryDelay,
       TEvent.attempt 2 false, TEvent.sleep retryDelay,
       TEvent.attempt 3 false, TEvent.setStatus "error"] ∧
    ((transcode (fun _ => false) true "v1" "in" "out"
        ⟨["in"], ⟨[], [⟨"v1", "conv-1", "alice", "out", "pending",
          0⟩]⟩⟩).1.filter isAttempt).length = maxRetries ∧
    (transcode (fun _ => false) true "v1" "in" "out"
        ⟨["in"], ⟨[], [⟨"v1", "conv-1", "alice", "out", "pending",
          0⟩]⟩⟩).2.fs = ["in"] ∧
    (∀ v ∈ (transcode (fun _ => false) true "v1" "in" "out"
        ⟨["in"], ⟨[], [⟨"v1", "conv-1", "alice", "out", "pending",
          0⟩]⟩⟩).2.db.videos,
      v.id = "v1" → v.status = "error") :=
  C3_transcode_exhausted (fun _ => false) true "v1" "in" "out"
    ⟨["in"], ⟨[], [⟨"v1", "conv-1", "alice", "out", "pending", 0⟩]⟩⟩
    (by decide) (by decide) (by decide)

/-- C4 counterexample: when the write of the original file fails partway
(`os.Create` succeeded, `io.Copy` failed), the handler returns `500` but the
partial file is still on disk afterwards — `Upload` has no `os.Remove` on the
`saveFile` error path, contradicting the claim that no file (including any
partial file) remains for a failed intake. -/
theorem C4_counterexample :
    (Upload "videos" (mkUploadReq "alice" "conv-1" "clip.mp4" "vid1"
        .copyFail) ⟨[], ⟨[("conv-1", "alice")], []⟩⟩ 0).httpStatus = 500 ∧
    "videos/conv-1/original_vid1.mp4" ∈
      (Upload "videos" (mkUploadReq "alice" "conv-1" "clip.mp4" "vid1"
        .copyFail) ⟨[], ⟨[("conv-1", "alice")], []⟩⟩ 0).state.fs := by
  decide

/-- C4 (amended): every failed intake returns `500` and leaves no metadata
record; if `os.Create` itself fails nothing changes at all, and if record
creation fails the just-written original is removed so neither file nor
record survives — but when the write fails after the file was created
(`io.Copy` error), the partial file remains on disk (the handler does not
remove it). -/
theorem C4_intake_failures (videosDir username conversationID filename
    videoId : String) (st : SysState) (now : Nat)
    (hcid : conversationID ≠ "")
    (hmem : IsMember st.db conversationID username = true)
    (hext : allowedExtensions.contains (strToLower (filepathExt filename))
      = true) :
    Upload videosDir (mkUploadReq username conversationID filename videoId
        .createFail) st now = ⟨500, none, st, none⟩ ∧
    ((Upload videosDir (mkUploadReq username conversationID filename videoId
        .copyFail) st now).httpStatus = 500 ∧
     (Upload videosDir (mkUploadReq username conversationID filename videoId
        .copyFail) st now).state.db = st.db ∧
     (Upload videosDir (mkUploadReq username conversationID filename videoId
        .copyFail) st now).job = none ∧
     (Upload videosDir (mkUploadReq username conversationID filename videoId
        .copyFail) st now).state.fs =
       st.fs.insert (joinPath (joinPath videosDir conversationID)
         ("original_" ++ videoId ++ strToLower (filepathExt filename)))) ∧
    (st.db.videos.any (fun v => v.id == videoId) = true →
     joinPath (joinPath videosDir conversationID)
         ("original_" ++ videoId ++ strToLower (filepathExt filename)) ∉
       st.fs →
     Upload videosDir (mkUploadReq username conversationID filename videoId
        .ok) st now = ⟨500, none, st, none⟩) := by
  have hext' : strToLower (filepathExt filename) ∈ allowedExtensions := by
    simpa using hext
  refine ⟨?_, ?_, ?_⟩
  · simp [Upload, mkUploadReq, requireSession, saveFile, hcid, hmem, hext']
  · simp [Upload, mkUploadReq, requireSession, saveFile, hcid, hmem, hext']
  · intro hdup hnot
    have herase : (st.fs.insert (joinPath (joinPath videosDir conversationID)
        ("original_" ++ videoId ++ strToLower (filepathExt filename)))).erase
        (joinPath (joinPath videosDir conversationID)
          ("original_" ++ videoId ++ strToLower (filepathExt filename))) =
        st.fs := by
      rw [List.insert_of_not_mem hnot, List.erase_cons_head]
    simp [Upload, mkUploadReq, requireSession, saveFile, CreateVideo,
      hcid, hmem, hext', hdup, herase]

/-- Witness for C4 (amended) at concrete inputs: a failing `os.Create`
changes nothing, a failing `io.Copy` leaves exactly the partial file, and a
failing record creation rolls the written file back. -/
theorem C4_intake_failures_witness :
    Upload "videos" (mkUploadReq "alice" "conv-1" "clip.mp4" "vid1"
        .createFail)
        ⟨[], ⟨[("conv-1", "alice")],
          [⟨"vid1", "conv-1", "alice", "f", "pending", 0⟩]⟩⟩ 0 =
      ⟨500, none, ⟨[], ⟨[("conv-1", "alice")],
        [⟨"vid1", "conv-1", "alice", "f", "pending", 0⟩]⟩⟩, none⟩ ∧
    ((Upload "videos" (mkUploadReq "alice" "conv-1" "clip.mp4" "vid1"
        .copyFail)
        ⟨[], ⟨[("conv-1", "alice")],
          [⟨"vid1", "conv-1", "alice", "f", "pending", 0⟩]⟩⟩ 0).httpStatus
        = 500 ∧
     (Upload "videos" (mkUploadReq "alice" "conv-1" "clip.mp4" "vid1"
        .copyFail)
        ⟨[], ⟨[("conv-1", "alice")],
          [⟨"vid1", "conv-1", "alice", "f", "pending", 0⟩]⟩⟩ 0).state.db =
       ⟨[("conv-1", "alice")],
        [⟨"vid1", "conv-1", "alice", "f", "pending", 0⟩]⟩ ∧
     (Upload "videos" (mkUploadReq "alice" "conv-1" "clip.mp4" "vid1"
        .copyFail)
        ⟨[], ⟨[("conv-1", "alice")],
          [⟨"vid1", "conv-1", "alice", "f", "pending", 0⟩]⟩⟩ 0).job = none ∧
     (Upload "videos" (mkUploadReq "alice" "conv-1" "clip.mp4" "vid1"
        .copyFail)
        ⟨[], ⟨[("conv-1", "alice")],
          [⟨"vid1", "conv-1", "alice", "f", "pending", 0⟩]⟩⟩ 0).state.fs =
       List.insert (joinPath (joinPath "videos" "conv-1")
         ("original_" ++ "vid1" ++ strToLower (filepathExt "clip.mp4"))) []) ∧
    ((⟨[("conv-1", "alice")],
        [⟨"vid1", "conv-1", "alice", "f", "pending", 0⟩]⟩ : DBState).videos.any
        (fun v => v.id == "vid1") = true →
     joinPath (joinPath "videos" "conv-1")
         ("original_" ++ "vid1" ++ strToLower (filepathExt "clip.mp4")) ∉
       ([] : List String) →
     Upload "videos" (mkUploadReq "alice" "conv-1" "clip.mp4" "vid1" .ok)
        ⟨[], ⟨[("conv-1", "alice")],
          [⟨"vid1", "conv-1", "alice", "f", "pending", 0⟩]⟩⟩ 0 =
      ⟨500, none, ⟨[], ⟨[("conv-1", "alice")],
        [⟨"vid1", "conv-1", "alice", "f", "pending", 0⟩]⟩⟩, none⟩) :=
  C4_intake_failures "videos" "alice" "conv-1" "clip.mp4" "vid1"
    ⟨[], ⟨[("conv-1", "alice")],
      [⟨"vid1", "conv-1", "alice", "f", "pending", 0⟩]⟩⟩ 0
    (by decide) (by decide) (by decide)

/-- C6: For upload and listing alike, authentication and then membership are
checked before any mutation: a request without a valid session yields `401`
with the state unchanged, a valid session for a non-member yields `403` with
the state unchanged, no transcode job is dispatched in either case, and the
two signals are distinct. -/
theorem C6_auth_before_mutation :
    (∀ (videosDir : String) (req : UploadRequest) (st : SysState) (now : Nat),
      requireSession req.hasToken req.sessionUser = none →
      Upload videosDir req st now = ⟨401, none, st, none⟩) ∧
    (∀ (req : ListRequest) (st : SysState),
      requireSession req.hasToken req.sessionUser = none →
      ListVideos req st = ⟨401, none, st⟩) ∧
    (∀ (videosDir : String) (req : UploadRequest) (st : SysState) (now : Nat)
        (username : String),
      requireSession req.hasToken req.sessionUser = some username →
      req.parseOk = true → req.conversationId ≠ "" →
      IsMember st.db req.conversationId username = false →
      Upload videosDir req st now = ⟨403, none, st, none⟩) ∧
    (∀ (req : ListRequest) (st : SysState) (username : String),
      requireSession req.hasToken req.sessionUser = some username →
      req.conversationId ≠ "" →
      IsMember st.db req.conversationId username = false →
      ListVideos req st = ⟨403, none, st⟩) ∧
    (401 : Nat) ≠ 403 := by
  refine ⟨?_, ?_, ?_, ?_, by decide⟩
  · intro videosDir req st now h
    simp [Upload, h]
  · intro req st h
    simp [ListVideos, h]
  · intro videosDir req st now username h hp hc hm
    simp [Upload, h, hp, hc, hm]
  · intro req st username h hc hm
    simp [ListVideos, h, hc, hm]

/-- Witness for C6: an unauthenticated upload and listing return `401` with
unchanged state; an authenticated non-member gets `403` with unchanged state;
the two signals differ. -/
theorem C6_auth_before_mutation_witness :
    Upload "videos" ⟨false, none, true, "conv-1", true, "a.mp4", true, "v1",
        true, .ok⟩ ⟨[], ⟨[], []⟩⟩ 0 = ⟨401, none, ⟨[], ⟨[], []⟩⟩, none⟩ ∧
    ListVideos ⟨false, none, "conv-1"⟩ ⟨[], ⟨[], []⟩⟩ =
      ⟨401, none, ⟨[], ⟨[], []⟩⟩⟩ ∧
    Upload "videos" ⟨true, some "mallory", true, "conv-1", true, "a.mp4",
        true, "v1", true, .ok⟩ ⟨[], ⟨[("conv-1", "alice")], []⟩⟩ 0 =
      ⟨403, none, ⟨[], ⟨[("conv-1", "alice")], []⟩⟩, none⟩ ∧
    ListVideos ⟨true, some "mallory", "conv-1"⟩
        ⟨[], ⟨[("conv-1", "alice")], []⟩⟩ =
      ⟨403, none, ⟨[], ⟨[("conv-1", "alice")], []⟩⟩⟩ ∧
    (401 : Nat) ≠ 403 :=
  ⟨C6_auth_before_mutation.1 "videos" _ _ 0 rfl,
   C6_auth_before_mutation.2.1 _ _ rfl,
   C6_auth_before_mutation.2.2.1 "videos" _ _ 0 "mallory" rfl rfl (by decide)
     (by decide),
   C6_auth_before_mutation.2.2.2.1 _ _ "mallory" rfl (by decide) (by decide),
   C6_auth_before_mutation.2.2.2.2⟩

/-- C10: Adding a member to a conversation is idempotent — `AddMember` is an
`INSERT OR IGNORE`, so adding the same `(conversation, username)` pair a
second time succeeds and leaves the membership relation unchanged. -/
theorem C10_addMember_idempotent (db : DBState)
    (conversationID username : String) :
    AddMember (AddMember db conversationID username) conversationID username =
      AddMember db conversationID username := by
  by_cases h : (conversationID, username) ∈ db.members <;>
    simp [AddMember, h]

end Waffle
